import Mathlib

/-!
# Verification of the gst-wpe-broadcast-demo pipeline orchestrator

A shallow embedding of `src/pipeline.rs` (and the pieces of
`src/settings.rs` it depends on).  The GStreamer library itself is
external to the repository, so its primitives (tee request pads, pad
probes, bus messages, `call_async` deferred tasks, element state
changes) are modelled as an explicit state record `Model` together with
executable state-transformer functions that mirror the Rust control flow
of `Pipeline::start_recording`, `Pipeline::stop_recording`,
`Pipeline::refresh`, `Pipeline::on_pipeline_message` and the
free function `update_overlay` line by line.

Environment outcomes that the Rust code receives from GStreamer
(whether a parse, link or state change succeeds) are passed in
explicitly as an environment record, so every branch of the source is
reachable in the model.
-/

set_option autoImplicit false

namespace GstWpeDemo

/-- Mirrors `settings.rs`: `pub enum VideoResolution { V480P, V720P, V1080P }`. -/
inductive VideoResolution where
  | V480P
  | V720P
  | V1080P
  deriving DecidableEq, Repr

/-- Mirrors `settings.rs`: `pub struct Settings` with the RTMP location, the H.264
encoder description string and the video resolution. -/
structure Settings where
  rtmp_location : Option String
  h264_encoder : String
  video_resolution : VideoResolution
  deriving DecidableEq, Repr

/-- Mirrors `settings.rs`: `impl Default for Settings`. -/
def Settings.default : Settings :=
  { rtmp_location := none
    h264_encoder := "video/x-raw,format=NV12 ! vaapih264enc bitrate=20000 keyframe-period=60 ! video/x-h264,profile=main"
    video_resolution := VideoResolution.V720P }

/-- GStreamer element states used by the code (`gst::State`). -/
inductive GstState where
  | Null
  | Paused
  | Playing
  deriving DecidableEq, Repr

/-- The resolution-to-dimensions match appearing verbatim in
`Pipeline::new` and `Pipeline::refresh` (pipeline.rs lines 76-80 and
146-150). -/
def resolution_dims : VideoResolution → Nat × Nat
  | .V480P => (640, 480)
  | .V720P => (1280, 720)
  | .V1080P => (1920, 1080)

/-- A GStreamer bus message, restricted to the views
`Pipeline::on_pipeline_message` distinguishes.  An application message
carries its structure name and, when present, the `"text"` field. -/
inductive GMessage where
  | error (src : Option String) (err : String) (debug : Option String)
  | application (structName : String) (textField : Option String)
  | element (structName : Option String)
  | stateChanged (srcIsPipeline : Bool)
  | asyncDone
  | other
  deriving DecidableEq, Repr

/-- Mirrors `Pipeline::create_application_warning_message` (pipeline.rs 521-528):
an application message with structure `"warning"` and a `"text"` field. -/
def create_application_warning_message (text : String) : GMessage :=
  GMessage.application "warning" (some text)

/--
The joint state of the GStreamer objects the recording-branch code
touches, plus the three `RefCell` slots of `PipelineInner`.

* Tee request pads are identified by the `Nat` at which they were
  requested from the counter `nextPad`; `teePads` / `audioTeePads` hold
  the request pads currently existing on the video tee / the audio tee
  (a pad's parent element exists exactly while it is in one of these
  lists; `release_request_pad` removes it).
* `releases` records, most recent first, every pad ever handed back by
  `release_request_pad` — the claim about double release is a statement
  about this list.
* `binInPipeline` says whether a bin named `"recording-bin"` is
  currently inside the top-level pipeline; `binState` is that bin's
  element state and `binLinks` the tee request pads currently linked
  into the bin's ghost pads (`gst_bin_remove` unlinks them).
* `probes` holds the pads carrying an installed IDLE pad probe, in
  installation order; `asyncTasks` counts the teardown closures queued
  via `call_async` but not yet run; `bus` is the pipeline bus queue.
-/
structure Model where
  recording_bin : Option Unit
  recording_audio_pad : Option Nat
  recording_video_pad : Option Nat
  nextPad : Nat
  teePads : List Nat
  audioTeePads : List Nat
  releases : List Nat
  binInPipeline : Bool
  binState : GstState
  binLinks : List Nat
  probes : List Nat
  asyncTasks : Nat
  bus : List GMessage
  deriving DecidableEq, Repr

/-- The freshly constructed pipeline: no recording branch anywhere. -/
def initModel : Model :=
  { recording_bin := none
    recording_audio_pad := none
    recording_video_pad := none
    nextPad := 0
    teePads := []
    audioTeePads := []
    releases := []
    binInPipeline := false
    binState := GstState.Null
    binLinks := []
    probes := []
    asyncTasks := 0
    bus := [] }

/-- Outcomes the Rust fallible operations the model mirrors can have:
`ok`, an `Err` return carrying the message built at the return site, or
a panic from an `expect`/`unwrap`. -/
inductive Outcome where
  | ok
  | err (msg : String)
  | panicked
  deriving DecidableEq, Repr

/-- The environment results GStreamer hands to one `start_recording`
call: whether `parse_bin_from_description`, `set_name`, the two
`srcpad.link` calls and the final `set_state(Playing)` succeed (`none` =
success for the fallible ones whose error value is formatted into the
returned message). -/
structure StartEnv where
  parseErr : Option String
  setNameErr : Option String
  videoLinkErr : Option String
  audioLinkErr : Option String
  playOk : Bool
  deriving DecidableEq, Repr

/-- All-success environment. -/
def StartEnv.allOk : StartEnv :=
  { parseErr := none, setNameErr := none, videoLinkErr := none
    audioLinkErr := none, playOk := true }

/-- Effect of `pipeline.remove(&bin)` on the error paths of `start_recording`
together with the trailing `bin.set_state(Null)`: the bin leaves the
pipeline, its ghost-pad links are unlinked, and the bin (still never
started) is in the Null state.  The tee request pads and the `RefCell`
slots are NOT touched by this — exactly as in the source. -/
def removeBinOnError (m : Model) : Model :=
  { m with binInPipeline := false, binLinks := [], binState := GstState.Null }

/--
Mirrors `Pipeline::start_recording` (pipeline.rs 216-309), step by step:

1. early `Err` when `settings.rtmp_location` is `None`;
2. `parse_bin_from_description` / `set_name` failures mapped to `Err`;
3. `pipeline.add(&bin)` — panics (`expect`) iff a bin with the same
   name is already in the pipeline;
4. request a video pad from the tee, store it in the
   `recording_video_pad` slot, ghost-link it; on link failure remove the
   bin and return `Err` (the slot and the request pad stay behind);
5. the same for the audio pad on the audio tee;
6. `bin.set_state(Playing)`; on failure return `Err` (bin left added);
7. only then store the bin in the `recording_bin` slot and return `Ok`.

`gst::GhostPad::new` on a static sink pad of a queue always succeeds,
so the `if let Ok(...)` around each ghost pad always takes the `Ok` arm.
-/
def start_recording (settings : Settings) (env : StartEnv) (m : Model) :
    Model × Outcome :=
  if settings.rtmp_location = none then
    (m, Outcome.err "Please set the RTMP end-point URL in the settings")
  else
    match env.parseErr with
    | some e => (m, Outcome.err ("Failed to create recording pipeline: " ++ e))
    | none =>
      match env.setNameErr with
      | some e => (m, Outcome.err ("Failed to set recording bin name: " ++ e))
      | none =>
        if m.binInPipeline then
          (m, Outcome.panicked)
        else
          let m := { m with binInPipeline := true, binState := GstState.Null,
                            binLinks := [] }
          let vpad := m.nextPad
          let m := { m with nextPad := m.nextPad + 1,
                            teePads := m.teePads ++ [vpad] }
          let m := { m with recording_video_pad := some vpad }
          match env.videoLinkErr with
          | some e =>
            (removeBinOnError m,
             Outcome.err ("Failed to link recording bin video branch: " ++ e))
          | none =>
            let m := { m with binLinks := m.binLinks ++ [vpad] }
            let apad := m.nextPad
            let m := { m with nextPad := m.nextPad + 1,
                              audioTeePads := m.audioTeePads ++ [apad] }
            let m := { m with recording_audio_pad := some apad }
            match env.audioLinkErr with
            | some e =>
              (removeBinOnError m,
               Outcome.err ("Failed to link recording bin audio branch: " ++ e))
            | none =>
              let m := { m with binLinks := m.binLinks ++ [apad] }
              if env.playOk then
                let m := { m with binState := GstState.Playing }
                ({ m with recording_bin := some () }, Outcome.ok)
              else
                (m, Outcome.err "Failed to start recording")

/--
Mirrors `Pipeline::stop_recording` (pipeline.rs 312-419): `take()` the
`recording_bin` slot (return if empty), then the `recording_audio_pad`
slot (return if empty), then the `recording_video_pad` slot (return if
empty); then install an IDLE pad probe on the video request pad and one
on the audio request pad.  The probe callbacks themselves run later
(possibly immediately on the calling thread when the pad is already
idle) — in the model they are fired by `fireProbe`, so every
interleaving the framework allows is a schedule of operations.
-/
def stop_recording (m : Model) : Model :=
  match m.recording_bin with
  | none => m
  | some _ =>
    let m1 := { m with recording_bin := none }
    match m1.recording_audio_pad with
    | none => m1
    | some apad =>
      let m2 := { m1 with recording_audio_pad := none }
      match m2.recording_video_pad with
      | none => m2
      | some vpad =>
        let m3 := { m2 with recording_video_pad := none }
        { m3 with probes := m3.probes ++ [vpad, apad] }

/-- The parent element of a tee request pad: the tee it currently
belongs to, or `none` once it has been released. -/
inductive TeeId where
  | video
  | audio
  deriving DecidableEq, Repr

/-- Result of `srcpad.get_parent()` of a request pad, as observed by the probe
callback: present exactly while the pad still belongs to its tee. -/
def padParent (m : Model) (p : Nat) : Option TeeId :=
  if p ∈ m.teePads then some TeeId.video
  else if p ∈ m.audioTeePads then some TeeId.audio
  else none

/--
Firing the `i`-th installed IDLE probe (pipeline.rs 346-378 and
385-418).  The callback: if the pad still has a parent, unlink the pad
from the recording bin's ghost pad, `release_request_pad` it back to the
tee, queue the deferred `call_async` teardown closure, and return
`PadProbeReturn::Remove` — removing the probe itself.  If the pad has no
parent the callback returns `PadProbeReturn::Ok` and the probe stays.
-/
def fireProbe (i : Nat) (m : Model) : Model :=
  match m.probes.get? i with
  | none => m
  | some p =>
    match padParent m p with
    | none => m
    | some t =>
      let m := { m with binLinks := m.binLinks.erase p }
      let m :=
        match t with
        | TeeId.video => { m with teePads := m.teePads.erase p }
        | TeeId.audio => { m with audioTeePads := m.audioTeePads.erase p }
      { m with releases := p :: m.releases,
               asyncTasks := m.asyncTasks + 1,
               probes := m.probes.eraseIdx i }

/--
Running one queued `call_async` teardown closure (pipeline.rs 354-370
and 393-410): look up `"recording-bin"` in the pipeline (return if it is
gone already), remove it from the pipeline, then `bin.set_state(Null)`;
`stopRes = none` means that state change succeeded, `stopRes = some e`
means it failed with error display `e`, in which case a `"warning"`
application message is posted on the pipeline's own bus — the closure
never touches the UI directly.
-/
def runAsyncTask (stopRes : Option String) (m : Model) : Model :=
  if m.asyncTasks = 0 then m
  else
    let m := { m with asyncTasks := m.asyncTasks - 1 }
    if m.binInPipeline then
      let m := { m with binInPipeline := false }
      match stopRes with
      | none => { m with binState := GstState.Null }
      | some e =>
        { m with bus := m.bus ++
            [create_application_warning_message ("Failed to stop recording: " ++ e)] }
    else m

/-- One observable operation on the recording-branch state: a
`start_recording` call, a `stop_recording` call, the firing of an
installed idle probe, or the pipeline thread running one queued
`call_async` closure. -/
inductive Op where
  | startRec (settings : Settings) (env : StartEnv)
  | stopRec
  | fire (i : Nat)
  | runAsync (stopRes : Option String)

/-- Execute one operation. -/
def step (m : Model) : Op → Model
  | Op.startRec s e => (start_recording s e m).1
  | Op.stopRec => stop_recording m
  | Op.fire i => fireProbe i m
  | Op.runAsync r => runAsyncTask r m

/-- Execute a whole schedule of operations. -/
def runOps (m : Model) (ops : List Op) : Model :=
  ops.foldl step m

/-! ## The resolution reconfigurator (`Pipeline::refresh`) -/

/-- The camera capsfilter string written by `Pipeline::refresh`
(pipeline.rs 162-169). -/
def camCapsString (width height : Nat) : String :=
  "image/jpeg,width=" ++ toString width ++ ",height=" ++ toString height ++
    ",framerate=30/1"

/-- The wpe capsfilter string written by `Pipeline::refresh`
(pipeline.rs 170). -/
def wpeCapsString (width height : Nat) : String :=
  "video/x-raw(memory:GLMemory),width=" ++ toString width ++ ",height=" ++
    toString height ++ ",pixel-aspect-ratio=(fraction)1/1"

/-- The live parameters of the main pipeline that `refresh` touches: the
two capsfilters' caps, the mixer `sink_1` pad geometry (`none` when the
pad does not exist — `refresh` guards on `get_static_pad("sink_1")`),
and the pipeline element state. -/
structure MainState where
  camCaps : String
  wpeCaps : String
  mixerSink1 : Option (Nat × Nat)
  mainState : GstState
  deriving DecidableEq, Repr

/-- The main state right after `Pipeline::new` at resolution `r`: both
capsfilters and the mixer `sink_1` pad carry the dimensions of `r`, and
the pipeline has not been started yet. -/
def initMainState (r : VideoResolution) : MainState :=
  let wh := resolution_dims r
  { camCaps := camCapsString wh.1 wh.2
    wpeCaps := wpeCapsString wh.1 wh.2
    mixerSink1 := some (wh.1, wh.2)
    mainState := GstState.Null }

/-- One externally visible action performed by `Pipeline::refresh`, in
program order. -/
inductive RAction where
  | setCamCaps (caps : String)
  | setWpeCaps (caps : String)
  | setPadGeometry (width height : Nat)
  | setPipelineState (s : GstState)
  | sendReconfigureEvent
  deriving DecidableEq, Repr

/--
Mirrors `Pipeline::refresh` (pipeline.rs 143-185): re-read the settings, resolve
the resolution to width/height, then — in this order — rewrite the
camera capsfilter caps, rewrite the wpe capsfilter caps, rewrite the
mixer `sink_1` pad width/height (when that pad exists), set the pipeline
to `Paused`, send a reconfigure event to the display sink, and set the
pipeline back to `Playing`.  Returns the new state together with the
ordered action trace.  (The two `set_state` calls are `unwrap`ped in the
source; state changes on this pipeline succeed, so the model treats them
as such.)
-/
def refresh (settings : Settings) (st : MainState) : MainState × List RAction :=
  let wh := resolution_dims settings.video_resolution
  let w := wh.1
  let h := wh.2
  let st1 := { st with camCaps := camCapsString w h }
  let st2 := { st1 with wpeCaps := wpeCapsString w h }
  let padStep : MainState × List RAction :=
    match st2.mixerSink1 with
    | none => (st2, [])
    | some _ => ({ st2 with mixerSink1 := some (w, h) }, [RAction.setPadGeometry w h])
  let st3 := padStep.1
  let st4 := { st3 with mainState := GstState.Paused }
  let st5 := { st4 with mainState := GstState.Playing }
  (st5,
   [RAction.setCamCaps (camCapsString w h), RAction.setWpeCaps (wpeCapsString w h)]
     ++ padStep.2
     ++ [RAction.setPipelineState GstState.Paused, RAction.sendReconfigureEvent,
         RAction.setPipelineState GstState.Playing])

/-! ## The event dispatcher (`Pipeline::on_pipeline_message`) -/

/-- UI-facing effects the dispatcher can perform: an error dialog with
its fatal flag, a vu-meter update (its `f64` payload is outside the
model), a diagnostic dot-file dump, or a panic from a violated
`expect` contract. -/
inductive UiEffect where
  | showDialog (fatal : Bool) (text : String)
  | vumeterUpdate
  | debugDot
  | contractPanic
  deriving DecidableEq, Repr

/-- The `format!("Error from {:?}: {} ({:?})", ...)` text built in the
error arm, with Rust's `Debug` rendering of the two `Option`s. -/
def rustDebugOptionString : Option String → String
  | none => "None"
  | some s => "Some(\"" ++ s ++ "\")"

/--
Mirrors `Pipeline::on_pipeline_message` (pipeline.rs 429-519), arm by arm:
errors open a fatal dialog; an application message whose structure is
named `"warning"` opens a NON-fatal dialog with the structure's
`"text"` field (panicking if that field is missing); element messages
named `"level"` update the vu-meter; state-changed messages from the
pipeline itself and async-done messages dump diagnostic dot files;
everything else is ignored.
-/
def on_pipeline_message : GMessage → List UiEffect
  | GMessage.error src err debug =>
    [UiEffect.showDialog true
      ("Error from " ++ rustDebugOptionString src ++ ": " ++ err ++ " (" ++
        rustDebugOptionString debug ++ ")")]
  | GMessage.application structName textField =>
    if structName = "warning" then
      match textField with
      | some t => [UiEffect.showDialog false t]
      | none => [UiEffect.contractPanic]
    else []
  | GMessage.element structName =>
    match structName with
    | some n => if n = "level" then [UiEffect.vumeterUpdate] else []
    | none => []
  | GMessage.stateChanged srcIsPipeline =>
    if srcIsPipeline then [UiEffect.debugDot] else []
  | GMessage.asyncDone => [UiEffect.debugDot]
  | GMessage.other => []

/-! ## The overlay renderer (`update_overlay` and the `strfmt` crate) -/

/-- The two brace characters, kept as named constants. -/
def lbraceChar : Char := Char.ofNat 123

/-- Closing brace character. -/
def rbraceChar : Char := Char.ofNat 125

/-- Scan a placeholder key up to the closing brace; fails on a missing
closing brace or a nested opening brace, as `strfmt` does. -/
def takeKey : List Char → Option (List Char × List Char)
  | [] => none
  | c :: rest =>
    if c = rbraceChar then some ([], rest)
    else if c = lbraceChar then none
    else
      match takeKey rest with
      | none => none
      | some kr => some (c :: kr.1, kr.2)

theorem takeKey_length :
    ∀ (l : List Char) (kr : List Char × List Char), takeKey l = some kr →
      kr.2.length < l.length := by
  intro l
  induction l with
  | nil => intro kr h; simp [takeKey] at h
  | cons c rest ih =>
    intro kr h
    rw [takeKey] at h
    by_cases hc : c = rbraceChar
    · rw [if_pos hc] at h
      cases h
      simp
    · rw [if_neg hc] at h
      by_cases hl : c = lbraceChar
      · rw [if_pos hl] at h
        exact Option.noConfusion h
      · rw [if_neg hl] at h
        match hk : takeKey rest with
        | none => rw [hk] at h; exact Option.noConfusion h
        | some kr0 =>
          rw [hk] at h
          cases h
          have := ih kr0 hk
          simp
          omega

/--
The behaviour of `strfmt::strfmt` from the `strfmt` crate (an external
dependency of `update_overlay`) on spec-free placeholders: `\x7b\x7b`
and `\x7d\x7d` are escapes for literal braces, `\x7bkey\x7d` is replaced
by the value bound to `key` in the variable map, an unknown key, an
unmatched brace or an unterminated placeholder is an error (`none`).
Replacement values are spliced literally and never rescanned.
-/
def strfmtChars (vars : List (String × String)) : List Char → Option (List Char)
  | [] => some []
  | c :: rest =>
    if c = lbraceChar then
      match rest with
      | [] => none
      | c2 :: rest2 =>
        if c2 = lbraceChar then
          match strfmtChars vars rest2 with
          | none => none
          | some out => some (lbraceChar :: out)
        else
          match hk : takeKey (c2 :: rest2) with
          | none => none
          | some kr =>
            match List.lookup (String.mk kr.1) vars with
            | none => none
            | some v =>
              match strfmtChars vars kr.2 with
              | none => none
              | some out => some (v.toList ++ out)
    else if c = rbraceChar then
      match rest with
      | [] => none
      | c2 :: rest2 =>
        if c2 = rbraceChar then
          match strfmtChars vars rest2 with
          | none => none
          | some out => some (rbraceChar :: out)
        else none
    else
      match strfmtChars vars rest with
      | none => none
      | some out => some (c :: out)
termination_by l => l.length
decreasing_by
  all_goals simp_wf
  all_goals
    first
      | omega
      | (have hlen := takeKey_length _ _ hk; simp at hlen; omega)

/-- The base64 alphabet (RFC 4648), as used by the `base64` crate's
`encode`. -/
def b64Alphabet : List Char :=
  "ABCDEFGHIJKLMNOPQRSTUVWXYZabcdefghijklmnopqrstuvwxyz0123456789+/".toList

/-- The base64 digit for a 6-bit value. -/
def b64Char (n : Nat) : Char := b64Alphabet.getD n 'A'

/-- Standard base64 with padding over a byte list, three bytes to four
output characters (`base64::encode`). -/
def base64Chars : List Nat → List Char
  | [] => []
  | [a] =>
    [b64Char (a % 256 / 4), b64Char (a % 4 * 16), '=', '=']
  | [a, b] =>
    [b64Char (a % 256 / 4), b64Char (a % 4 * 16 + b % 256 / 16),
     b64Char (b % 16 * 4), '=']
  | a :: b :: c :: rest =>
    b64Char (a % 256 / 4) :: b64Char (a % 4 * 16 + b % 256 / 16) ::
      b64Char (b % 16 * 4 + c % 256 / 64) :: b64Char (c % 64) ::
      base64Chars rest

/-- Model of `base64::encode` producing a string. -/
def base64Encode (bytes : List Nat) : String := String.mk (base64Chars bytes)

/--
The free function `update_overlay` (pipeline.rs 53-70), parameterized by
the two embedded image assets (`include_bytes!` of `igalia-logo.png` and
`gst-logo.svg`, data files outside the Rust sources): build the two
base64 data URIs, bind the three template variables `css_buffer`,
`igalia_logo` and `gst_logo`, and format the markup template with
`strfmt`.  The source `unwrap`s the `strfmt` result before emitting the
document on the wpe source's `"load-bytes"` signal; `none` models that
panic on a failed substitution, `some doc` the document actually
emitted.
-/
def update_overlay (igaliaLogoBytes gstLogoBytes : List Nat)
    (html_buffer css_buffer : String) : Option String :=
  let igalia_logo := "data:image/png;base64," ++ base64Encode igaliaLogoBytes
  let gst_logo := "data:image/svg+xml;base64," ++ base64Encode gstLogoBytes
  let vars := [("css_buffer", css_buffer), ("igalia_logo", igalia_logo),
               ("gst_logo", gst_logo)]
  match strfmtChars vars html_buffer.toList with
  | none => none
  | some out => some (String.mk out)

/-- A character list free of both brace characters (ordinary template
text). -/
def BraceFree (l : List Char) : Prop :=
  ∀ c ∈ l, c ≠ lbraceChar ∧ c ≠ rbraceChar

instance (l : List Char) : Decidable (BraceFree l) := by
  unfold BraceFree; infer_instance

/-- A well-formed spec-free placeholder key: no braces and no `:` format
specifier (the fragment of `strfmt` exercised by this code base). -/
def KeyOk (k : String) : Prop :=
  BraceFree k.toList ∧ ':' ∉ k.toList

instance (k : String) : Decidable (KeyOk k) := by
  unfold KeyOk; infer_instance

/-! ## Helper scenarios and invariants used by the theorems -/

/-- Settings with a configured publish destination. -/
def exSettings : Settings :=
  { rtmp_location := some "rtmp://example.org/live/stream-key"
    h264_encoder := "x264enc tune=zerolatency"
    video_resolution := VideoResolution.V720P }

/-- Environment in which linking the video tap to the recording bin
fails. -/
def envVideoLinkFail : StartEnv :=
  { StartEnv.allOk with videoLinkErr := some "GST_PAD_LINK_REFUSED" }

/-- Environment in which linking the audio tap to the recording bin
fails. -/
def envAudioLinkFail : StartEnv :=
  { StartEnv.allOk with audioLinkErr := some "GST_PAD_LINK_REFUSED" }

/-- The three recording slots of `PipelineInner` are in the
all-or-nothing configuration the spec's invariant describes: all
occupied or all empty. -/
def SlotsAllOrNothing (m : Model) : Prop :=
  (m.recording_bin = none ∧ m.recording_audio_pad = none ∧
    m.recording_video_pad = none) ∨
  (m.recording_bin ≠ none ∧ m.recording_audio_pad ≠ none ∧
    m.recording_video_pad ≠ none)

instance (m : Model) : Decidable (SlotsAllOrNothing m) := by
  unfold SlotsAllOrNothing; infer_instance

/-- The inductive invariant behind single release, on the quadruple of
pad-bookkeeping fields: releases are pairwise distinct, released pads
are gone from both tees, live request pads are pairwise distinct across
the two tees, and everything is below the freshness counter. -/
def InvQ (releases teePads audioTeePads : List Nat) (nextPad : Nat) : Prop :=
  releases.Nodup ∧
  (∀ p ∈ releases, p < nextPad ∧ p ∉ teePads ∧ p ∉ audioTeePads) ∧
  (teePads ++ audioTeePads).Nodup ∧
  (∀ p ∈ teePads ++ audioTeePads, p < nextPad)

/-- The invariant, read off a model state. -/
def Inv (m : Model) : Prop :=
  InvQ m.releases m.teePads m.audioTeePads m.nextPad

/-- One complete, fairly scheduled recording cycle: a successful start,
a stop, both idle probes firing (video first, then audio — after the
video probe removes itself the audio probe is at index `0`), and the
pipeline thread running both queued teardown closures. -/
def cycleOps : List Op :=
  [Op.startRec exSettings StartEnv.allOk, Op.stopRec,
   Op.fire 0, Op.fire 0, Op.runAsync none, Op.runAsync none]

/-- Schedule of `n` consecutive recording cycles. -/
def nCycles : Nat → List Op
  | 0 => []
  | n + 1 => nCycles n ++ cycleOps

/-- The quiescent state after `n` complete cycles: `2 n` pads were
requested and each of them was released exactly once. -/
def cleanModel (n : Nat) : Model :=
  { initModel with nextPad := 2 * n, releases := (List.range (2 * n)).reverse }

/-! ## Theorems -/

/-- C3: starting recording with no configured RTMP publish destination
fails with the configuration error and performs no state change at all:
no bin is built or added, no tap pad is requested, every slot and every
graph component is exactly as before. -/
theorem start_recording_no_rtmp_is_error_and_noop
    (settings : Settings) (env : StartEnv) (m : Model)
    (h : settings.rtmp_location = none) :
    start_recording settings env m =
      (m, Outcome.err "Please set the RTMP end-point URL in the settings") := by
  simp [start_recording, h]

theorem start_recording_no_rtmp_is_error_and_noop_witness :
    Settings.default.rtmp_location = none ∧
    start_recording Settings.default StartEnv.allOk initModel =
      (initModel, Outcome.err "Please set the RTMP end-point URL in the settings") :=
  ⟨rfl, start_recording_no_rtmp_is_error_and_noop Settings.default StartEnv.allOk
    initModel rfl⟩

/-- Helper: `stop_recording` always leaves the `recording_bin` slot
empty (either it was empty, or it was just `take`n). -/
theorem stop_recording_bin_slot_empty (m : Model) :
    (stop_recording m).recording_bin = none := by
  unfold stop_recording
  cases hb : m.recording_bin with
  | none => exact hb
  | some b =>
    cases ha : m.recording_audio_pad with
    | none => simp
    | some a =>
      cases hv : m.recording_video_pad with
      | none => simp [ha]
      | some v => simp [ha, hv]

/-- C9: calling `stop_recording` when no recording branch is attached
(the bin slot is empty) is a complete no-op — the state, including every
slot, probe and graph component, is returned unchanged — and therefore a
second consecutive `stop_recording` call never has any further effect. -/
theorem stop_recording_noop_when_empty_and_idempotent :
    (∀ m : Model, m.recording_bin = none → stop_recording m = m) ∧
    (∀ m : Model, stop_recording (stop_recording m) = stop_recording m) := by
  have hnoop : ∀ m : Model, m.recording_bin = none → stop_recording m = m := by
    intro m h
    unfold stop_recording
    rw [h]
  exact ⟨hnoop, fun m => hnoop _ (stop_recording_bin_slot_empty m)⟩

theorem stop_recording_noop_when_empty_and_idempotent_witness :
    stop_recording initModel = initModel ∧
    stop_recording (stop_recording initModel) = stop_recording initModel :=
  ⟨stop_recording_noop_when_empty_and_idempotent.1 initModel rfl,
   stop_recording_noop_when_empty_and_idempotent.2 initModel⟩

/-- C10: `stop_recording` empties the slots it reads in the order bin,
audio tap, video tap, returning as soon as one is empty: with the bin
slot occupied and the audio slot empty, only the bin slot is cleared;
with bin and audio occupied and the video slot empty, exactly those two
are cleared.  Everything else — probes, links, tee pads, the running
graph — is untouched, and no unlink, release or bin removal happens. -/
theorem stop_recording_partial_slots_early_return :
    (∀ m : Model, m.recording_bin = some () → m.recording_audio_pad = none →
      stop_recording m = { m with recording_bin := none }) ∧
    (∀ (m : Model) (a : Nat), m.recording_bin = some () →
      m.recording_audio_pad = some a → m.recording_video_pad = none →
      stop_recording m =
        { m with recording_bin := none, recording_audio_pad := none }) := by
  constructor
  · intro m hb ha
    unfold stop_recording
    rw [hb]
    simp [ha]
  · intro m a hb ha hv
    unfold stop_recording
    rw [hb]
    simp [ha, hv]

theorem stop_recording_partial_slots_early_return_witness :
    stop_recording { initModel with recording_bin := some () } =
      { { initModel with recording_bin := some () } with recording_bin := none } ∧
    stop_recording
        { initModel with recording_bin := some (), recording_audio_pad := some 7 } =
      { { initModel with recording_bin := some (), recording_audio_pad := some 7 }
          with recording_bin := none, recording_audio_pad := none } :=
  ⟨stop_recording_partial_slots_early_return.1 _ rfl rfl,
   stop_recording_partial_slots_early_return.2 _ 7 rfl rfl rfl⟩

/-- C4: whenever linking a tap to the recording bin's ghost pad fails
(video branch or audio branch), `start_recording` removes the bin from
the top-level pipeline and leaves it stopped (Null, with no surviving
link into it) before returning an error. -/
theorem start_recording_link_failure_removes_and_stops_bin
    (settings : Settings) (env : StartEnv) (m : Model)
    (hr : settings.rtmp_location ≠ none)
    (hp : env.parseErr = none) (hn : env.setNameErr = none)
    (hb : m.binInPipeline = false)
    (hl : env.videoLinkErr ≠ none ∨ env.audioLinkErr ≠ none) :
    (start_recording settings env m).1.binInPipeline = false ∧
    (start_recording settings env m).1.binState = GstState.Null ∧
    (start_recording settings env m).1.binLinks = [] ∧
    ∃ msg, (start_recording settings env m).2 = Outcome.err msg := by
  cases hv : env.videoLinkErr with
  | some e =>
    simp [start_recording, hr, hp, hn, hb, hv, removeBinOnError]
  | none =>
    cases ha : env.audioLinkErr with
    | some e =>
      simp [start_recording, hr, hp, hn, hb, hv, ha, removeBinOnError]
    | none =>
      rcases hl with h | h
      · exact absurd hv h
      · exact absurd ha h

theorem start_recording_link_failure_removes_and_stops_bin_witness :
    (start_recording exSettings envVideoLinkFail initModel).1.binInPipeline = false ∧
    (start_recording exSettings envVideoLinkFail initModel).1.binState = GstState.Null ∧
    (start_recording exSettings envVideoLinkFail initModel).1.binLinks = [] ∧
    ∃ msg, (start_recording exSettings envVideoLinkFail initModel).2 =
      Outcome.err msg :=
  start_recording_link_failure_removes_and_stops_bin exSettings envVideoLinkFail
    initModel (by simp [exSettings]) rfl rfl rfl (Or.inl (by simp [envVideoLinkFail]))

/-- C5: when the recording bin's stop transition fails inside the
deferred `call_async` teardown closure, the closure posts a synthesized
`"warning"` application message carrying the formatted text onto the
pipeline's own bus — the only change besides consuming the task and
removing the bin, with no direct UI call — and the dispatcher surfaces
exactly that message as a non-fatal (`fatal = false`) dialog notice. -/
theorem async_teardown_stop_failure_posts_warning
    (m : Model) (e : String)
    (ht : m.asyncTasks ≠ 0) (hb : m.binInPipeline = true) :
    runAsyncTask (some e) m =
      { m with asyncTasks := m.asyncTasks - 1,
               binInPipeline := false,
               bus := m.bus ++
                 [create_application_warning_message
                   ("Failed to stop recording: " ++ e)] } ∧
    on_pipeline_message
        (create_application_warning_message ("Failed to stop recording: " ++ e)) =
      [UiEffect.showDialog false ("Failed to stop recording: " ++ e)] := by
  constructor
  · unfold runAsyncTask
    rw [if_neg ht]
    simp [hb]
  · simp [on_pipeline_message, create_application_warning_message]

theorem async_teardown_stop_failure_posts_warning_witness :
    runAsyncTask (some "state change failed")
        { initModel with
            asyncTasks := 1
            binInPipeline := true
            binState := GstState.Playing } =
      { initModel with
          asyncTasks := 0
          binInPipeline := false
          binState := GstState.Playing
          bus := [create_application_warning_message
            ("Failed to stop recording: " ++ "state change failed")] } ∧
    on_pipeline_message
        (create_application_warning_message
          ("Failed to stop recording: " ++ "state change failed")) =
      [UiEffect.showDialog false
        ("Failed to stop recording: " ++ "state change failed")] := by
  have h := async_teardown_stop_failure_posts_warning
    { initModel with
        asyncTasks := 1
        binInPipeline := true
        binState := GstState.Playing }
    "state change failed" (by decide) rfl
  exact ⟨h.1.trans (by decide), h.2⟩

/-- C6: for every settings state, `refresh` resolves the resolution enum
to exactly 640x480 / 1280x720 / 1920x1080, rewrites the camera
capsfilter caps, the wpe capsfilter caps and the mixer `sink_1` pad
geometry to those dimensions, and leaves the pipeline in the Playing
state. -/
theorem refresh_rewrites_dimensions_and_plays
    (settings : Settings) (st : MainState)
    (hpad : st.mixerSink1.isSome) :
    ((refresh settings st).1.camCaps =
        camCapsString (resolution_dims settings.video_resolution).1
          (resolution_dims settings.video_resolution).2 ∧
      (refresh settings st).1.wpeCaps =
        wpeCapsString (resolution_dims settings.video_resolution).1
          (resolution_dims settings.video_resolution).2 ∧
      (refresh settings st).1.mixerSink1 =
        some (resolution_dims settings.video_resolution) ∧
      (refresh settings st).1.mainState = GstState.Playing) ∧
    resolution_dims VideoResolution.V480P = (640, 480) ∧
    resolution_dims VideoResolution.V720P = (1280, 720) ∧
    resolution_dims VideoResolution.V1080P = (1920, 1080) := by
  cases hp : st.mixerSink1 with
  | none => rw [hp] at hpad; simp at hpad
  | some p =>
    refine ⟨?_, rfl, rfl, rfl⟩
    simp [refresh, hp]

theorem refresh_rewrites_dimensions_and_plays_witness :
    (refresh { Settings.default with video_resolution := VideoResolution.V1080P }
        (initMainState VideoResolution.V720P)).1 =
      { camCaps := camCapsString 1920 1080
        wpeCaps := wpeCapsString 1920 1080
        mixerSink1 := some (1920, 1080)
        mainState := GstState.Playing } := by
  have h := refresh_rewrites_dimensions_and_plays
    { Settings.default with video_resolution := VideoResolution.V1080P }
    (initMainState VideoResolution.V720P) (by decide)
  obtain ⟨⟨h1, h2, h3, h4⟩, -⟩ := h
  cases hf : (refresh { Settings.default with
      video_resolution := VideoResolution.V1080P }
    (initMainState VideoResolution.V720P)).1
  rw [hf] at h1 h2 h3 h4
  simp at h1 h2 h3 h4
  simp [h1, h2, h3, h4, resolution_dims]

/-- C7 counterexample: the action trace of a concrete `refresh` call
applies the three parameter changes FIRST and only then pauses the
pipeline, so the claimed bracketed order "first pause, then apply the
three changes, then send the renegotiation event, then resume" is false:
the first action is the camera-caps rewrite, not the pause. -/
theorem refresh_trace_pause_is_not_first :
    (refresh Settings.default (initMainState VideoResolution.V720P)).2 =
      [RAction.setCamCaps (camCapsString 1280 720),
       RAction.setWpeCaps (wpeCapsString 1280 720),
       RAction.setPadGeometry 1280 720,
       RAction.setPipelineState GstState.Paused,
       RAction.sendReconfigureEvent,
       RAction.setPipelineState GstState.Playing] ∧
    (refresh Settings.default (initMainState VideoResolution.V720P)).2.head? ≠
      some (RAction.setPipelineState GstState.Paused) := by
  decide

/-- C7 amended: every `refresh` call performs its steps in the bracketed
order apply-then-pause: first the three parameter changes (camera caps,
wpe caps, mixer pad geometry, in that order), then the pause, then the
force-renegotiation event to the display sink, then the resume to
Playing. -/
theorem refresh_trace_order
    (settings : Settings) (st : MainState)
    (hpad : st.mixerSink1.isSome) :
    (refresh settings st).2 =
      [RAction.setCamCaps (camCapsString (resolution_dims settings.video_resolution).1
          (resolution_dims settings.video_resolution).2),
       RAction.setWpeCaps (wpeCapsString (resolution_dims settings.video_resolution).1
          (resolution_dims settings.video_resolution).2),
       RAction.setPadGeometry (resolution_dims settings.video_resolution).1
          (resolution_dims settings.video_resolution).2,
       RAction.setPipelineState GstState.Paused,
       RAction.sendReconfigureEvent,
       RAction.setPipelineState GstState.Playing] := by
  cases hp : st.mixerSink1 with
  | none => rw [hp] at hpad; simp at hpad
  | some p => simp [refresh, hp]

theorem refresh_trace_order_witness :
    (refresh Settings.default (initMainState VideoResolution.V480P)).2 =
      [RAction.setCamCaps (camCapsString 1280 720),
       RAction.setWpeCaps (wpeCapsString 1280 720),
       RAction.setPadGeometry 1280 720,
       RAction.setPipelineState GstState.Paused,
       RAction.sendReconfigureEvent,
       RAction.setPipelineState GstState.Playing] :=
  refresh_trace_order Settings.default (initMainState VideoResolution.V480P)
    (by decide)

/-- Helper: whenever `start_recording` does not return `Ok`, the
`recording_bin` slot is exactly what it was before the call — on every
early return, error path and panic path the slot is only written after
full success. -/
theorem start_recording_error_keeps_bin_slot
    (settings : Settings) (env : StartEnv) (m : Model)
    (h : (start_recording settings env m).2 ≠ Outcome.ok) :
    (start_recording settings env m).1.recording_bin = m.recording_bin := by
  by_cases h1 : settings.rtmp_location = none
  · simp [start_recording, h1]
  · cases hp : env.parseErr with
    | some pe => simp [start_recording, h1, hp]
    | none =>
      cases hn : env.setNameErr with
      | some e2 => simp [start_recording, h1, hp, hn]
      | none =>
        by_cases hb : m.binInPipeline
        · simp [start_recording, h1, hp, hn, hb]
        · cases hv : env.videoLinkErr with
          | some ve => simp [start_recording, h1, hp, hn, hb, hv, removeBinOnError]
          | none =>
            cases ha : env.audioLinkErr with
            | some ae =>
              simp [start_recording, h1, hp, hn, hb, hv, ha, removeBinOnError]
            | none =>
              by_cases hpl : env.playOk
              · exact absurd (by simp [start_recording, h1, hp, hn, hb, hv, ha, hpl]) h
              · simp [start_recording, h1, hp, hn, hb, hv, ha, hpl]

/-- C2 counterexample: after a `start_recording` call whose video-branch
link fails, the call has returned with the recording-bin slot empty but
the video tap-handle slot still occupied — a partially-occupied slot
state observable after the call, refuting the all-or-nothing claim for
error returns. -/
theorem start_recording_failed_link_leaves_partial_slots :
    ¬ SlotsAllOrNothing (start_recording exSettings envVideoLinkFail initModel).1 ∧
    (start_recording exSettings envVideoLinkFail initModel).1.recording_bin = none ∧
    (start_recording exSettings envVideoLinkFail initModel).1.recording_video_pad =
      some 0 := by
  decide

/-- C2 amended: on a fully successful `start_recording` the
all-or-nothing invariant holds — all three slots are occupied, both
branches are linked, the sub-graph is in the pipeline in the Playing
state, and the bin slot is written only on that full-success path (any
non-Ok return leaves the bin slot untouched).  After an error return,
however, the tap-handle slots assigned before the failing step remain
occupied, so the all-empty half of the original claim fails on error
paths. -/
theorem start_recording_success_is_all_or_nothing
    (settings : Settings) (env : StartEnv) (m : Model)
    (hr : settings.rtmp_location ≠ none)
    (hp : env.parseErr = none) (hn : env.setNameErr = none)
    (hv : env.videoLinkErr = none) (ha : env.audioLinkErr = none)
    (hpl : env.playOk = true) (hb : m.binInPipeline = false) :
    start_recording settings env m =
      ({ m with
          recording_bin := some ()
          recording_audio_pad := some (m.nextPad + 1)
          recording_video_pad := some m.nextPad
          nextPad := m.nextPad + 2
          teePads := m.teePads ++ [m.nextPad]
          audioTeePads := m.audioTeePads ++ [m.nextPad + 1]
          binInPipeline := true
          binState := GstState.Playing
          binLinks := [m.nextPad, m.nextPad + 1] }, Outcome.ok) ∧
    (∀ (s' : Settings) (e' : StartEnv) (m' : Model),
        (start_recording s' e' m').2 ≠ Outcome.ok →
        (start_recording s' e' m').1.recording_bin = m'.recording_bin) := by
  constructor
  · simp [start_recording, hr, hp, hn, hb, hv, ha, hpl]
  · exact start_recording_error_keeps_bin_slot

theorem start_recording_success_is_all_or_nothing_witness :
    start_recording exSettings StartEnv.allOk initModel =
      ({ initModel with
          recording_bin := some ()
          recording_audio_pad := some 1
          recording_video_pad := some 0
          nextPad := 2
          teePads := [0]
          audioTeePads := [1]
          binInPipeline := true
          binState := GstState.Playing
          binLinks := [0, 1] }, Outcome.ok) ∧
    (start_recording exSettings envVideoLinkFail initModel).1.recording_bin =
      initModel.recording_bin := by
  have h := start_recording_success_is_all_or_nothing exSettings StartEnv.allOk
    initModel (by simp [exSettings]) rfl rfl rfl rfl rfl rfl
  exact ⟨h.1.trans (by decide),
    h.2 exSettings envVideoLinkFail initModel (by decide)⟩

/-- Helper: requesting a fresh pad from the video tee preserves the
release invariant. -/
theorem invq_add_video {rel tp atp : List Nat} {np : Nat}
    (h : InvQ rel tp atp np) : InvQ rel (tp ++ [np]) atp (np + 1) := by
  obtain ⟨h1, h2, h3, h4⟩ := h
  have hnp_tp : np ∉ tp := fun hm => Nat.lt_irrefl np (h4 np (List.mem_append_left _ hm))
  have hnp_atp : np ∉ atp :=
    fun hm => Nat.lt_irrefl np (h4 np (List.mem_append_right _ hm))
  refine ⟨h1, ?_, ?_, ?_⟩
  · intro p hpm
    obtain ⟨hlt, htp, hatp⟩ := h2 p hpm
    refine ⟨Nat.lt_succ_of_lt hlt, ?_, hatp⟩
    simp only [List.mem_append, List.mem_singleton]
    rintro (hc | hc)
    · exact htp hc
    · omega
  · rw [List.append_assoc, List.singleton_append]
    refine (List.Perm.nodup_iff List.perm_middle).mpr ?_
    refine List.nodup_cons.mpr ⟨?_, h3⟩
    simp only [List.mem_append]
    rintro (hc | hc)
    · exact hnp_tp hc
    · exact hnp_atp hc
  · intro p hpm
    rw [List.append_assoc, List.singleton_append] at hpm
    rcases List.mem_append.mp hpm with hc | hc
    · exact Nat.lt_succ_of_lt (h4 p (List.mem_append_left _ hc))
    · rcases List.mem_cons.mp hc with hc | hc
      · omega
      · exact Nat.lt_succ_of_lt (h4 p (List.mem_append_right _ hc))

/-- Helper: requesting a fresh pad from the audio tee preserves the
release invariant. -/
theorem invq_add_audio {rel tp atp : List Nat} {np : Nat}
    (h : InvQ rel tp atp np) : InvQ rel tp (atp ++ [np]) (np + 1) := by
  obtain ⟨h1, h2, h3, h4⟩ := h
  have hnp_tp : np ∉ tp := fun hm => Nat.lt_irrefl np (h4 np (List.mem_append_left _ hm))
  have hnp_atp : np ∉ atp :=
    fun hm => Nat.lt_irrefl np (h4 np (List.mem_append_right _ hm))
  refine ⟨h1, ?_, ?_, ?_⟩
  · intro p hpm
    obtain ⟨hlt, htp, hatp⟩ := h2 p hpm
    refine ⟨Nat.lt_succ_of_lt hlt, htp, ?_⟩
    simp only [List.mem_append, List.mem_singleton]
    rintro (hc | hc)
    · exact hatp hc
    · omega
  · rw [← List.append_assoc]
    refine (List.Perm.nodup_iff (List.perm_append_singleton np (tp ++ atp))).mpr ?_
    refine List.nodup_cons.mpr ⟨?_, h3⟩
    simp only [List.mem_append]
    rintro (hc | hc)
    · exact hnp_tp hc
    · exact hnp_atp hc
  · intro p hpm
    rw [← List.append_assoc] at hpm
    rcases List.mem_append.mp hpm with hc | hc
    · exact Nat.lt_succ_of_lt (h4 p hc)
    · rcases List.mem_singleton.mp hc with rfl
      omega

/-- Helper: releasing a pad that still belongs to the video tee
preserves the release invariant, recording exactly one new release. -/
theorem invq_release_video {rel tp atp : List Nat} {np p : Nat}
    (h : InvQ rel tp atp np) (hp : p ∈ tp) :
    InvQ (p :: rel) (tp.erase p) atp np := by
  obtain ⟨h1, h2, h3, h4⟩ := h
  have htp_nodup : tp.Nodup := (List.nodup_append.mp h3).1
  have hdisj : tp.Disjoint atp := (List.nodup_append.mp h3).2.2
  have hp_not_rel : p ∉ rel := fun hm => (h2 p hm).2.1 hp
  refine ⟨List.nodup_cons.mpr ⟨hp_not_rel, h1⟩, ?_, ?_, ?_⟩
  · intro q hq
    rcases List.mem_cons.mp hq with rfl | hq
    · refine ⟨h4 q (List.mem_append_left _ hp), ?_, hdisj hp⟩
      intro hc
      exact ((htp_nodup.mem_erase_iff.mp hc).1) rfl
    · obtain ⟨hlt, htp, hatp⟩ := h2 q hq
      exact ⟨hlt, fun hc => htp (List.mem_of_mem_erase hc), hatp⟩
  · exact ((List.erase_sublist p tp).append (List.Sublist.refl atp)).nodup h3
  · intro q hq
    exact h4 q (((List.erase_sublist p tp).append (List.Sublist.refl atp)).subset hq)

/-- Helper: releasing a pad that still belongs to the audio tee
preserves the release invariant, recording exactly one new release. -/
theorem invq_release_audio {rel tp atp : List Nat} {np p : Nat}
    (h : InvQ rel tp atp np) (hp : p ∈ atp) :
    InvQ (p :: rel) tp (atp.erase p) np := by
  obtain ⟨h1, h2, h3, h4⟩ := h
  have hatp_nodup : atp.Nodup := (List.nodup_append.mp h3).2.1
  have hdisj : tp.Disjoint atp := (List.nodup_append.mp h3).2.2
  have hp_not_rel : p ∉ rel := fun hm => (h2 p hm).2.2 hp
  refine ⟨List.nodup_cons.mpr ⟨hp_not_rel, h1⟩, ?_, ?_, ?_⟩
  · intro q hq
    rcases List.mem_cons.mp hq with rfl | hq
    · refine ⟨h4 q (List.mem_append_right _ hp), fun hc => hdisj hc hp, ?_⟩
      intro hc
      exact ((hatp_nodup.mem_erase_iff.mp hc).1) rfl
    · obtain ⟨hlt, htp, hatp2⟩ := h2 q hq
      exact ⟨hlt, htp, fun hc => hatp2 (List.mem_of_mem_erase hc)⟩
  · exact ((List.Sublist.refl tp).append (List.erase_sublist p atp)).nodup h3
  · intro q hq
    exact h4 q (((List.Sublist.refl tp).append (List.erase_sublist p atp)).subset hq)

/-- Helper: `start_recording` preserves the release invariant in every
branch (error paths included — they only add fresh pads, never release). -/
theorem inv_start_recording (s : Settings) (e : StartEnv) (m : Model)
    (h : Inv m) : Inv (start_recording s e m).1 := by
  unfold Inv at *
  by_cases h1 : s.rtmp_location = none
  · simpa [start_recording, h1] using h
  · cases hp : e.parseErr with
    | some pe => simpa [start_recording, h1, hp] using h
    | none =>
      cases hn : e.setNameErr with
      | some e2 => simpa [start_recording, h1, hp, hn] using h
      | none =>
        by_cases hb : m.binInPipeline
        · simpa [start_recording, h1, hp, hn, hb] using h
        · cases hv : e.videoLinkErr with
          | some ve =>
            simp only [start_recording, h1, hp, hn, hb, hv, removeBinOnError,
              if_neg, if_false, ite_false]
            simpa using invq_add_video h
          | none =>
            cases ha : e.audioLinkErr with
            | some ae =>
              simp only [start_recording, h1, hp, hn, hb, hv, ha, removeBinOnError]
              simpa using invq_add_audio (invq_add_video h)
            | none =>
              by_cases hpl : e.playOk
              · simp only [start_recording, h1, hp, hn, hb, hv, ha, hpl]
                simpa using invq_add_audio (invq_add_video h)
              · simp only [start_recording, h1, hp, hn, hb, hv, ha, hpl]
                simpa using invq_add_audio (invq_add_video h)

/-- Helper: `stop_recording` only moves slot contents and installs
probes; the pad bookkeeping is untouched, so the invariant persists. -/
theorem inv_stop_recording (m : Model) (h : Inv m) : Inv (stop_recording m) := by
  unfold Inv at *
  unfold stop_recording
  cases hb : m.recording_bin with
  | none => exact h
  | some b =>
    cases ha : m.recording_audio_pad with
    | none => simpa using h
    | some a =>
      cases hv : m.recording_video_pad with
      | none => simpa [ha] using h
      | some v => simpa [ha, hv] using h

/-- Helper: firing a probe preserves the release invariant: when the pad
still has a parent it is released exactly once and removed from that
tee; otherwise nothing changes. -/
theorem inv_fireProbe (i : Nat) (m : Model) (h : Inv m) : Inv (fireProbe i m) := by
  unfold fireProbe
  split
  · exact h
  · next p hget =>
    split
    · exact h
    · next t hpar =>
      cases t with
      | video =>
        have hmem : p ∈ m.teePads := by
          by_contra hmem
          unfold padParent at hpar
          rw [if_neg hmem] at hpar
          by_cases h2 : p ∈ m.audioTeePads
          · rw [if_pos h2] at hpar
            simp at hpar
          · rw [if_neg h2] at hpar
            exact Option.noConfusion hpar
        unfold Inv at *
        simpa using invq_release_video h hmem
      | audio =>
        have hnv : p ∉ m.teePads := by
          intro hmem
          unfold padParent at hpar
          rw [if_pos hmem] at hpar
          simp at hpar
        have hmem : p ∈ m.audioTeePads := by
          by_contra hmem
          unfold padParent at hpar
          rw [if_neg hnv, if_neg hmem] at hpar
          exact Option.noConfusion hpar
        unfold Inv at *
        simpa using invq_release_audio h hmem

/-- Helper: the deferred teardown closure does not touch pads at all. -/
theorem inv_runAsyncTask (r : Option String) (m : Model) (h : Inv m) :
    Inv (runAsyncTask r m) := by
  unfold Inv at *
  unfold runAsyncTask
  by_cases h0 : m.asyncTasks = 0
  · rw [if_pos h0]
    exact h
  · rw [if_neg h0]
    by_cases hb : m.binInPipeline
    · simp only [hb, if_true]
      cases r with
      | none => simpa using h
      | some e => simpa using h
    · simp only [hb, if_false]
      simpa using h

/-- Helper: every operation preserves the release invariant. -/
theorem inv_step (m : Model) (op : Op) (h : Inv m) : Inv (step m op) := by
  cases op with
  | startRec s e => exact inv_start_recording s e m h
  | stopRec => exact inv_stop_recording m h
  | fire i => exact inv_fireProbe i m h
  | runAsync r => exact inv_runAsyncTask r m h

/-- Helper: the invariant holds along every schedule. -/
theorem inv_runOps (ops : List Op) : ∀ m : Model, Inv m → Inv (runOps m ops) := by
  induction ops with
  | nil => intro m h; exact h
  | cons op rest ih => intro m h; exact ih (step m op) (inv_step m op h)

/-- Helper: the fresh pipeline satisfies the release invariant. -/
theorem inv_init : Inv initModel := by
  unfold Inv InvQ initModel
  simp

/-- Helper: one fairly scheduled recording cycle carries the quiescent
state after `n` cycles to the quiescent state after `n + 1` cycles: the
two pads requested by the start are each released exactly once. -/
theorem runOps_cycle (n : Nat) : runOps (cleanModel n) cycleOps = cleanModel (n + 1) := by
  have h2 : 2 * (n + 1) = 2 * n + 1 + 1 := by ring
  simp [runOps, cycleOps, step, List.foldl, start_recording, stop_recording,
        fireProbe, runAsyncTask, padParent, exSettings, StartEnv.allOk,
        cleanModel, initModel, h2, List.range_succ]

/-- Helper: after `n` fairly scheduled cycles from the fresh pipeline,
the model is the quiescent state after `n` cycles. -/
theorem runOps_nCycles (n : Nat) : runOps initModel (nCycles n) = cleanModel n := by
  induction n with
  | zero => rfl
  | succ k ih =>
    rw [nCycles]
    unfold runOps
    rw [List.foldl_append]
    have hk : List.foldl step initModel (nCycles k) = cleanModel k := ih
    rw [hk]
    exact runOps_cycle k

/-- C1: the tap teardown is one-shot and releases each requested tap
handle exactly once.  (1) Along EVERY schedule of start/stop calls,
probe firings and async teardowns, the release log stays duplicate-free:
no tap handle is ever released back to its tee twice.  (2) A firing idle
probe whose pad still has a parent performs its unlink/release once and
removes itself from the probe list.  (3) Across any number `n` of fairly
scheduled start/stop cycles, the `2 n` requested tap handles are each
released exactly once (the release log is exactly the `2 n` requested
pads, once each). -/
theorem tap_handles_released_exactly_once :
    (∀ ops : List Op, (runOps initModel ops).releases.Nodup) ∧
    (∀ (m : Model) (i p : Nat), m.probes.get? i = some p →
      (padParent m p).isSome →
      (fireProbe i m).probes = m.probes.eraseIdx i ∧
      (fireProbe i m).releases = p :: m.releases) ∧
    (∀ n : Nat, (runOps initModel (nCycles n)).releases =
      (List.range (2 * n)).reverse) := by
  refine ⟨?_, ?_, ?_⟩
  · intro ops
    have h := inv_runOps ops initModel inv_init
    unfold Inv InvQ at h
    exact h.1
  · intro m i p hget hpar
    simp only [List.get?_eq_getElem?] at hget
    cases hp : padParent m p with
    | none => rw [hp] at hpar; simp at hpar
    | some t =>
      cases t with
      | video =>
        constructor <;> simp [fireProbe, List.get?_eq_getElem?, hget, hp]
      | audio =>
        constructor <;> simp [fireProbe, List.get?_eq_getElem?, hget, hp]
  · intro n
    rw [runOps_nCycles]
    rfl

theorem tap_handles_released_exactly_once_witness :
    (runOps initModel (nCycles 2)).releases.Nodup ∧
    (runOps initModel (nCycles 2)).releases = [3, 2, 1, 0] ∧
    (fireProbe 0 { initModel with probes := [5], teePads := [5] }).probes = [] ∧
    (fireProbe 0 { initModel with probes := [5], teePads := [5] }).releases = [5] := by
  have h := tap_handles_released_exactly_once
  have h2 := h.2.1 { initModel with probes := [5], teePads := [5] } 0 5 rfl (by decide)
  refine ⟨h.1 (nCycles 2), ?_, h2.1.trans rfl, h2.2.trans rfl⟩
  rw [h.2.2 2]
  rfl

/-- Helper: `String` append is list append on the underlying character
lists. -/
theorem string_toList_append (s t : String) :
    (s ++ t).toList = s.toList ++ t.toList := rfl

/-- Helper: the empty template formats to the empty document. -/
theorem strfmtChars_nil (vars : List (String × String)) :
    strfmtChars vars [] = some [] := by
  rw [strfmtChars.eq_def]

/-- Helper: an ordinary character passes through the formatter
unchanged. -/
theorem strfmtChars_plain_cons (vars : List (String × String)) (c : Char)
    (l : List Char) (h1 : c ≠ lbraceChar) (h2 : c ≠ rbraceChar) :
    strfmtChars vars (c :: l) =
      (strfmtChars vars l).map (fun out => c :: out) := by
  rw [strfmtChars.eq_def]
  simp only [h1, h2, if_false, ite_false]
  cases h : strfmtChars vars l <;> simp [h]

/-- Helper: a brace-free prefix passes through the formatter
unchanged. -/
theorem strfmtChars_append_of_braceFree (vars : List (String × String))
    (a l : List Char) (h : BraceFree a) :
    strfmtChars vars (a ++ l) =
      (strfmtChars vars l).map (fun out => a ++ out) := by
  induction a with
  | nil =>
    rw [List.nil_append]
    cases h2 : strfmtChars vars l <;> simp [h2]
  | cons c a ih =>
    have hc := h c (List.mem_cons_self c a)
    have ha : BraceFree a := fun x hx => h x (List.mem_cons_of_mem c hx)
    rw [List.cons_append, strfmtChars_plain_cons vars c (a ++ l) hc.1 hc.2, ih ha]
    cases h2 : strfmtChars vars l <;> simp [h2]

/-- Helper: a fully brace-free template formats to itself. -/
theorem strfmtChars_of_braceFree (vars : List (String × String))
    (l : List Char) (h : BraceFree l) : strfmtChars vars l = some l := by
  have h2 := strfmtChars_append_of_braceFree vars l [] h
  rw [List.append_nil] at h2
  rw [h2, strfmtChars_nil]
  simp

/-- Helper: scanning a brace-free key up to its closing brace yields the
key and the remainder. -/
theorem takeKey_braceFree (k rest : List Char) (h : BraceFree k) :
    takeKey (k ++ rbraceChar :: rest) = some (k, rest) := by
  induction k with
  | nil =>
    rw [List.nil_append, takeKey]
    simp
  | cons c k ih =>
    have hc := h c (List.mem_cons_self c k)
    have hk : BraceFree k := fun x hx => h x (List.mem_cons_of_mem c hx)
    rw [List.cons_append, takeKey, if_neg hc.2, if_neg hc.1, ih hk]

/-- Helper: reduction of the formatter at an opening brace followed by
an ordinary character, phrased without the dependent match. -/
theorem strfmtChars_cons_lbrace (vars : List (String × String)) (c2 : Char)
    (rest2 : List Char) (h2 : c2 ≠ lbraceChar) :
    strfmtChars vars (lbraceChar :: c2 :: rest2) =
      (match takeKey (c2 :: rest2) with
       | none => none
       | some kr =>
         match List.lookup (String.mk kr.1) vars with
         | none => none
         | some v => (strfmtChars vars kr.2).map (fun out => v.toList ++ out)) := by
  rw [strfmtChars, if_pos rfl, if_neg h2]
  split
  · next heq => rw [heq]
  · next kr heq =>
    rw [heq]
    cases hlk : List.lookup (String.mk kr.1) vars with
    | none => simp [hlk]
    | some v => cases hsf : strfmtChars vars kr.2 <;> simp [hlk, hsf]

/-- Helper: a recognized brace-free placeholder is replaced by its bound
value, with formatting continuing after the closing brace. -/
theorem strfmtChars_key (vars : List (String × String)) (k v : String)
    (rest : List Char) (hbf : BraceFree k.toList)
    (hlk : List.lookup k vars = some v) :
    strfmtChars vars (lbraceChar :: (k.toList ++ rbraceChar :: rest)) =
      (strfmtChars vars rest).map (fun out => v.toList ++ out) := by
  have hmk : String.mk k.toList = k := rfl
  have htk := takeKey_braceFree k.toList rest hbf
  cases hkl : k.toList with
  | nil =>
    rw [hkl] at hmk htk
    rw [List.nil_append]
    rw [List.nil_append] at htk
    rw [strfmtChars_cons_lbrace vars rbraceChar rest (by decide), htk]
    simp [hmk, hlk]
  | cons c2 k2 =>
    have hc2 : c2 ≠ lbraceChar ∧ c2 ≠ rbraceChar := by
      apply hbf
      rw [hkl]
      exact List.mem_cons_self c2 k2
    rw [hkl] at hmk htk
    rw [List.cons_append]
    rw [List.cons_append] at htk
    rw [strfmtChars_cons_lbrace vars c2 (k2 ++ rbraceChar :: rest) hc2.1, htk]
    simp [hmk, hlk]

/-- Helper: a brace-free placeholder whose key is not bound makes the
whole format fail. -/
theorem strfmtChars_key_unknown (vars : List (String × String)) (k : String)
    (rest : List Char) (hbf : BraceFree k.toList)
    (hlk : List.lookup k vars = none) :
    strfmtChars vars (lbraceChar :: (k.toList ++ rbraceChar :: rest)) = none := by
  have hmk : String.mk k.toList = k := rfl
  have htk := takeKey_braceFree k.toList rest hbf
  cases hkl : k.toList with
  | nil =>
    rw [hkl] at hmk htk
    rw [List.nil_append]
    rw [List.nil_append] at htk
    rw [strfmtChars_cons_lbrace vars rbraceChar rest (by decide), htk]
    simp [hmk, hlk]
  | cons c2 k2 =>
    have hc2 : c2 ≠ lbraceChar ∧ c2 ≠ rbraceChar := by
      apply hbf
      rw [hkl]
      exact List.mem_cons_self c2 k2
    rw [hkl] at hmk htk
    rw [List.cons_append]
    rw [List.cons_append] at htk
    rw [strfmtChars_cons_lbrace vars c2 (k2 ++ rbraceChar :: rest) hc2.1, htk]
    simp [hmk, hlk]

/-- C8: `update_overlay` substitutes the recognized placeholders — the
stylesheet placeholder becomes the literal stylesheet text, the two logo
placeholders become the base64 data URIs of the embedded image assets —
and it fails (the `strfmt` unwrap panics) whenever the template
references a brace-free, spec-free placeholder outside the recognized
set `css_buffer` / `igalia_logo` / `gst_logo`, such as
`\x7bunknown_field\x7d`. -/
theorem update_overlay_substitutes_and_rejects_unknown :
    (∀ (ig gl : List Nat) (css a b c d : String),
      BraceFree a.toList → BraceFree b.toList → BraceFree c.toList →
      BraceFree d.toList →
      update_overlay ig gl
        (a ++ "\x7bcss_buffer\x7d" ++ b ++ "\x7bigalia_logo\x7d" ++ c ++
          "\x7bgst_logo\x7d" ++ d) css =
        some (a ++ css ++ b ++ ("data:image/png;base64," ++ base64Encode ig) ++
          c ++ ("data:image/svg+xml;base64," ++ base64Encode gl) ++ d)) ∧
    (∀ (ig gl : List Nat) (css k a b : String),
      BraceFree a.toList → KeyOk k →
      k ∉ (["css_buffer", "igalia_logo", "gst_logo"] : List String) →
      update_overlay ig gl (a ++ "\x7b" ++ k ++ "\x7d" ++ b) css = none) := by
  constructor
  · intro ig gl css a b c d ha hb hc hd
    have hke1 : BraceFree ("css_buffer".toList) := by decide
    have hke2 : BraceFree ("igalia_logo".toList) := by decide
    have hke3 : BraceFree ("gst_logo".toList) := by decide
    have e1 : ("\x7bcss_buffer\x7d" : String).toList =
        lbraceChar :: ("css_buffer".toList ++ [rbraceChar]) := by decide
    have e2 : ("\x7bigalia_logo\x7d" : String).toList =
        lbraceChar :: ("igalia_logo".toList ++ [rbraceChar]) := by decide
    have e3 : ("\x7bgst_logo\x7d" : String).toList =
        lbraceChar :: ("gst_logo".toList ++ [rbraceChar]) := by decide
    have hT : (a ++ "\x7bcss_buffer\x7d" ++ b ++ "\x7bigalia_logo\x7d" ++ c ++
          "\x7bgst_logo\x7d" ++ d).toList =
        a.toList ++ (lbraceChar :: ("css_buffer".toList ++ rbraceChar ::
          (b.toList ++ (lbraceChar :: ("igalia_logo".toList ++ rbraceChar ::
            (c.toList ++ (lbraceChar :: ("gst_logo".toList ++ rbraceChar ::
              d.toList)))))))) := by
      simp [string_toList_append, e1, e2, e3, List.append_assoc]
      all_goals decide
    simp only [update_overlay]
    rw [hT]
    rw [strfmtChars_append_of_braceFree _ _ _ ha]
    rw [strfmtChars_key
      [("css_buffer", css),
       ("igalia_logo", "data:image/png;base64," ++ base64Encode ig),
       ("gst_logo", "data:image/svg+xml;base64," ++ base64Encode gl)]
      "css_buffer" css _ hke1 rfl]
    rw [strfmtChars_append_of_braceFree _ _ _ hb]
    rw [strfmtChars_key
      [("css_buffer", css),
       ("igalia_logo", "data:image/png;base64," ++ base64Encode ig),
       ("gst_logo", "data:image/svg+xml;base64," ++ base64Encode gl)]
      "igalia_logo" ("data:image/png;base64," ++ base64Encode ig) _ hke2 rfl]
    rw [strfmtChars_append_of_braceFree _ _ _ hc]
    rw [strfmtChars_key
      [("css_buffer", css),
       ("igalia_logo", "data:image/png;base64," ++ base64Encode ig),
       ("gst_logo", "data:image/svg+xml;base64," ++ base64Encode gl)]
      "gst_logo" ("data:image/svg+xml;base64," ++ base64Encode gl) _ hke3 rfl]
    rw [strfmtChars_of_braceFree _ _ hd]
    simp only [Option.map_some']
    simp [String.ext_iff, String.data_append, List.append_assoc]
  · intro ig gl css k a b ha hkok hmem
    obtain ⟨h1, h2, h3⟩ :
        k ≠ "css_buffer" ∧ k ≠ "igalia_logo" ∧ k ≠ "gst_logo" := by
      simpa using hmem
    have e1 : ("\x7b" : String).toList = [lbraceChar] := by decide
    have e2 : ("\x7d" : String).toList = [rbraceChar] := by decide
    have hT2 : (a ++ "\x7b" ++ k ++ "\x7d" ++ b).toList =
        a.toList ++ (lbraceChar :: (k.toList ++ rbraceChar :: b.toList)) := by
      simp [string_toList_append, e1, e2, List.append_assoc]
      all_goals decide
    have hlk : List.lookup k
        [("css_buffer", css),
         ("igalia_logo", "data:image/png;base64," ++ base64Encode ig),
         ("gst_logo", "data:image/svg+xml;base64," ++ base64Encode gl)] = none := by
      simp [List.lookup, beq_eq_false_iff_ne.mpr h1, beq_eq_false_iff_ne.mpr h2,
        beq_eq_false_iff_ne.mpr h3]
    simp only [update_overlay]
    rw [hT2]
    rw [strfmtChars_append_of_braceFree _ _ _ ha]
    rw [strfmtChars_key_unknown _ k _ hkok.1 hlk]
    rfl

theorem update_overlay_substitutes_and_rejects_unknown_witness :
    update_overlay [] []
        ("<div>" ++ "\x7bcss_buffer\x7d" ++ "</div>" ++ "\x7bigalia_logo\x7d" ++
          "" ++ "\x7bgst_logo\x7d" ++ "") "body\x7bcolor:red\x7d" =
      some ("<div>" ++ "body\x7bcolor:red\x7d" ++ "</div>" ++
        ("data:image/png;base64," ++ base64Encode []) ++ "" ++
        ("data:image/svg+xml;base64," ++ base64Encode []) ++ "") ∧
    update_overlay [] [] ("<div>" ++ "\x7b" ++ "unknown_field" ++ "\x7d" ++
      "</div>") "body\x7bcolor:red\x7d" = none := by
  have h := update_overlay_substitutes_and_rejects_unknown
  exact ⟨h.1 [] [] "body\x7bcolor:red\x7d" "<div>" "</div>" "" ""
      (by decide) (by decide) (by decide) (by decide),
    h.2 [] [] "body\x7bcolor:red\x7d" "unknown_field" "<div>" "</div>"
      (by decide) (by decide) (by decide)⟩

end GstWpeDemo
